import Mathlib

/-!
Shallow embedding of `Source/charon/encoding/payloads/sa_payload.c`, the IKEv2
Security Association payload of the charon daemon, together with the parts of
its collaborators (proposal substructure, transform substructure, header
constants) that the payload operations rely on.  Operations of `sa_payload.c`
are translated statement by statement; collaborator behaviour whose source is
not part of the given files is modelled from the specification and marked as
such in its doc comment.
-/

namespace StrongSwan

/-- Status codes of `status_t` as used by `sa_payload.c`. -/
inductive Status where
  | SUCCESS
  | FAILED
  | NOT_FOUND
  deriving DecidableEq, Repr

/-- Transform types distinguished by the `switch` in `get_ike_proposals`;
`OTHER_TYPE` stands for any transform type value that hits the `default`
branch of that switch. -/
inductive TransformType where
  | ENCRYPTION_ALGORITHM
  | PSEUDO_RANDOM_FUNCTION
  | INTEGRITY_ALGORITHM
  | DIFFIE_HELLMAN_GROUP
  | OTHER_TYPE
  deriving DecidableEq, Repr

/-- Protocol identifiers (`protocol_id_t`) distinguished by the code.
`UNDEFINED` stands for the default value of a freshly created proposal
substructure before `set_protocol_id` is called. -/
inductive ProtocolId where
  | UNDEFINED
  | IKE
  | AH
  | ESP
  deriving DecidableEq, Repr

/-- Modelled from the spec: a Transform Substructure
(`transform_substructure.c` is not among the given sources) — one transform
type, a type-scoped transform id, an optional key-length attribute and the
last-transform flag.  `get_key_length` is modelled as succeeding exactly when
the key-length attribute is present, returning its value, and leaving its
destination untouched on failure. -/
structure Transform where
  transform_type : TransformType
  transform_id : Nat
  key_length : Option Nat
  is_last_transform : Bool
  deriving DecidableEq, Repr

/-- Modelled from the spec: a transform's encoded length is its header plus
the optional key-length attribute (`transform_substructure.c` is not among
the given sources); the transform header is 8 bytes and a key-length
attribute occupies 4 bytes, per the IKEv2 wire format. -/
def Transform.get_length (t : Transform) : Nat :=
  8 + (if t.key_length.isSome then 4 else 0)

/-- Modelled from the spec: a Proposal Substructure
(`proposal_substructure.c` is not among the given sources) — proposal number,
protocol id, SPI byte string, the ordered sequence of transforms, the
last-proposal flag, and the outcome of the proposal's own (external) `verify`,
kept as an abstract boolean field. -/
structure Proposal where
  proposal_number : Nat
  protocol_id : ProtocolId
  spi : List Nat
  transforms : List Transform
  is_last_proposal : Bool
  verify_ok : Bool
  deriving DecidableEq, Repr

/-- Accessor `get_transform_count` of the proposal substructure. -/
def Proposal.get_transform_count (p : Proposal) : Nat :=
  p.transforms.length

/-- Accessor `get_spi_size` of the proposal substructure. -/
def Proposal.get_spi_size (p : Proposal) : Nat :=
  p.spi.length

/-- Modelled from the spec: a proposal's encoded length is its header plus
the SPI plus the sum of its transforms' encoded lengths
(`proposal_substructure.c` is not among the given sources); the proposal
header is 8 bytes and the stored length field is 16 bits wide, per the IKEv2
wire format. -/
def Proposal.get_length (p : Proposal) : Nat :=
  (8 + p.spi.length + (p.transforms.map Transform.get_length).sum) % 65536

/-- Helper mirroring `set_is_last_transform(last, FALSE)` applied to the tail
of a transform sequence: clears the last-transform flag of the final element,
if any. -/
def clear_last_transform : List Transform → List Transform
  | [] => []
  | [t] => [{ t with is_last_transform := false }]
  | t :: u :: rest => t :: clear_last_transform (u :: rest)

/-- Modelled from the spec: `add_transform_substructure` of the proposal
substructure clears the last-transform flag on the previous tail (if any),
sets it on the new transform, and appends it. -/
def Proposal.add_transform_substructure (p : Proposal) (t : Transform) : Proposal :=
  { p with transforms :=
      clear_last_transform p.transforms ++ [{ t with is_last_transform := true }] }

/-- Modelled from the spec: `proposal_substructure_create` yields a fresh
proposal with default field values — empty SPI, no transforms, cleared flags;
the proposal's own `verify` succeeds (it delegates to its transforms' verify,
which always succeeds at that level). -/
def proposal_substructure_create : Proposal :=
  { proposal_number := 0
    protocol_id := ProtocolId.UNDEFINED
    spi := []
    transforms := []
    is_last_proposal := false
    verify_ok := true }

/-- Modelled from the spec: `transform_substructure_create_type` builds a
transform carrying the given type, transform id and key-length attribute. -/
def transform_substructure_create_type (ty : TransformType) (tid : Nat) (klen : Nat) : Transform :=
  { transform_type := ty
    transform_id := tid
    key_length := some klen
    is_last_transform := false }

/-- The `private_sa_payload_t` state: next payload type (`u_int8_t`),
critical flag, stored payload length (`u_int16_t`), and the proposal list. -/
structure SaPayload where
  next_payload : Nat
  critical : Bool
  payload_length : Nat
  proposals : List Proposal
  deriving DecidableEq, Repr

/-- SA payload header length: 4 bytes (next payload 8 bits, critical flag
1 bit, 7 reserved bits, 16-bit payload length). -/
def SA_PAYLOAD_HEADER_LENGTH : Nat := 4

/-- Modelled from the spec: the `NO_PAYLOAD` next-payload code
(`sa_payload.h` is not among the given sources). -/
def NO_PAYLOAD : Nat := 0

/-- Modelled from the spec: the default critical flag
`SA_PAYLOAD_CRITICAL_FLAG` (`sa_payload.h` is not among the given sources);
the spec requires the critical flag to be false for a payload to be accepted
and freshly constructed payloads to verify successfully. -/
def SA_PAYLOAD_CRITICAL_FLAG : Bool := false

/-- Loop body of `verify`: one forward pass over the proposals comparing each
proposal number against the local variable `proposal_number`, which — exactly
as in the source — is initialised to 1 by the caller and never updated inside
the loop.  A failing nested proposal verify is modelled as `FAILED`. -/
def verify_loop (proposal_number : Nat) (first : Bool) : List Proposal → Status
  | [] => Status.SUCCESS
  | p :: rest =>
    if p.proposal_number > proposal_number then
      if first then Status.FAILED
      else if p.proposal_number ≠ proposal_number + 1 then Status.FAILED
      else if p.verify_ok then verify_loop proposal_number false rest
      else Status.FAILED
    else if p.proposal_number < proposal_number then Status.FAILED
    else if p.verify_ok then verify_loop proposal_number false rest
    else Status.FAILED

/-- Function `verify` of `sa_payload.c`: fails when the critical flag is set,
otherwise checks the proposal numbering and each proposal's own verify in a
single forward pass. -/
def verify (pl : SaPayload) : Status :=
  if pl.critical then Status.FAILED
  else verify_loop 1 true pl.proposals

/-- Function `compute_length` of `sa_payload.c`: recomputes the stored
payload length as header length plus the sum of the proposals' own lengths;
the store into the `u_int16_t` field truncates to 16 bits. -/
def compute_length (pl : SaPayload) : SaPayload :=
  { pl with payload_length :=
      (SA_PAYLOAD_HEADER_LENGTH + (pl.proposals.map Proposal.get_length).sum) % 65536 }

/-- Function `get_length` of `sa_payload.c`: forces a recomputation via
`compute_length` and returns the stored payload length. -/
def get_length (pl : SaPayload) : Nat :=
  (compute_length pl).payload_length

/-- Helper mirroring `set_is_last_proposal(last_proposal, FALSE)` applied to
the tail of the proposal sequence: clears the last-proposal flag of the final
element, if any. -/
def clear_last_proposal : List Proposal → List Proposal
  | [] => []
  | [p] => [{ p with is_last_proposal := false }]
  | p :: q :: rest => p :: clear_last_proposal (q :: rest)

/-- Function `add_proposal_substructure` of `sa_payload.c`: clears the
last-proposal flag on the current tail (when the list is non-empty — on the
empty list the clearing step is a no-op, matching the `get_count > 0` guard),
sets it on the new proposal, appends, and recomputes the payload length. -/
def add_proposal_substructure (pl : SaPayload) (p : Proposal) : SaPayload :=
  compute_length
    { pl with proposals :=
        clear_last_proposal pl.proposals ++ [{ p with is_last_proposal := true }] }

/-- The fixed-shape `ike_proposal_t` record consumed by the crypto layer. -/
structure IkeProposal where
  encryption_algorithm : Nat
  encryption_algorithm_key_length : Nat
  integrity_algorithm : Nat
  integrity_algorithm_key_length : Nat
  pseudo_random_function : Nat
  pseudo_random_function_key_length : Nat
  diffie_hellman_group : Nat
  deriving DecidableEq, Repr

/-- Pass-1 structural check of `get_ike_proposals` on one IKE proposal: it
must carry exactly 4 transforms and an empty SPI. -/
def ike_structure_ok (p : Proposal) : Bool :=
  p.get_transform_count == 4 && p.get_spi_size == 0

/-- First pass of `get_ike_proposals`: counts the IKE-protocol proposals,
failing (`none`) at the first IKE proposal whose transform count is not 4 or
whose SPI is non-empty.  Non-IKE proposals are skipped unchecked. -/
def ike_pass_one : List Proposal → Option Nat
  | [] => some 0
  | p :: rest =>
    if p.protocol_id = ProtocolId.IKE then
      if ike_structure_ok p then (ike_pass_one rest).map (· + 1)
      else none
    else ike_pass_one rest

/-- Local state of the transform scan in pass 2 of `get_ike_proposals`: the
fields of the `ike_proposal_t` record under construction plus the four
per-type found flags.  The numeric fields model the C record's storage (the
initial zeroes stand for the indeterminate contents of the fresh allocation;
they are only exposed to the caller once the corresponding found flag is
true). -/
structure ScanState where
  encryption_algorithm : Nat
  encryption_algorithm_key_length : Nat
  encryption_algorithm_found : Bool
  integrity_algorithm : Nat
  integrity_algorithm_key_length : Nat
  integrity_algorithm_found : Bool
  pseudo_random_function : Nat
  pseudo_random_function_key_length : Nat
  pseudo_random_function_found : Bool
  diffie_hellman_group : Nat
  diffie_hellman_group_found : Bool
  deriving DecidableEq, Repr

/-- Initial scan state: all found flags false. -/
def initial_scan_state : ScanState :=
  { encryption_algorithm := 0
    encryption_algorithm_key_length := 0
    encryption_algorithm_found := false
    integrity_algorithm := 0
    integrity_algorithm_key_length := 0
    integrity_algorithm_found := false
    pseudo_random_function := 0
    pseudo_random_function_key_length := 0
    pseudo_random_function_found := false
    diffie_hellman_group := 0
    diffie_hellman_group_found := false }

/-- One iteration of the transform `switch` in pass 2 of
`get_ike_proposals`: the matching record field receives the transform id; for
encryption, integrity and PRF the key-length field and found flag are updated
only when `get_key_length` succeeds; a Diffie-Hellman group is found
unconditionally; other transform types fall through the `default` branch. -/
def scan_step (s : ScanState) (t : Transform) : ScanState :=
  match t.transform_type with
  | TransformType.ENCRYPTION_ALGORITHM =>
    { s with encryption_algorithm := t.transform_id
             encryption_algorithm_key_length :=
               t.key_length.getD s.encryption_algorithm_key_length
             encryption_algorithm_found :=
               s.encryption_algorithm_found || t.key_length.isSome }
  | TransformType.INTEGRITY_ALGORITHM =>
    { s with integrity_algorithm := t.transform_id
             integrity_algorithm_key_length :=
               t.key_length.getD s.integrity_algorithm_key_length
             integrity_algorithm_found :=
               s.integrity_algorithm_found || t.key_length.isSome }
  | TransformType.PSEUDO_RANDOM_FUNCTION =>
    { s with pseudo_random_function := t.transform_id
             pseudo_random_function_key_length :=
               t.key_length.getD s.pseudo_random_function_key_length
             pseudo_random_function_found :=
               s.pseudo_random_function_found || t.key_length.isSome }
  | TransformType.DIFFIE_HELLMAN_GROUP =>
    { s with diffie_hellman_group := t.transform_id
             diffie_hellman_group_found := true }
  | TransformType.OTHER_TYPE => s

/-- Pass-2 scan of one IKE proposal's transforms: succeeds with the built
`ike_proposal_t` record only when all four found flags are set. -/
def scan_proposal (p : Proposal) : Option IkeProposal :=
  let s := p.transforms.foldl scan_step initial_scan_state
  if s.encryption_algorithm_found && s.integrity_algorithm_found &&
     s.pseudo_random_function_found && s.diffie_hellman_group_found then
    some { encryption_algorithm := s.encryption_algorithm
           encryption_algorithm_key_length := s.encryption_algorithm_key_length
           integrity_algorithm := s.integrity_algorithm
           integrity_algorithm_key_length := s.integrity_algorithm_key_length
           pseudo_random_function := s.pseudo_random_function
           pseudo_random_function_key_length := s.pseudo_random_function_key_length
           diffie_hellman_group := s.diffie_hellman_group }
  else none

/-- Second pass of `get_ike_proposals`: builds one `ike_proposal_t` record
per IKE proposal in wire order, aborting (`none`) at the first IKE proposal
whose scan leaves a required found flag unset. -/
def ike_pass_two : List Proposal → Option (List IkeProposal)
  | [] => some []
  | p :: rest =>
    if p.protocol_id = ProtocolId.IKE then
      match scan_proposal p with
      | none => none
      | some r => (ike_pass_two rest).map (fun l => r :: l)
    else ike_pass_two rest

/-- Outcome of `get_ike_proposals`: the output parameters (`*proposals` and
`*proposal_count`) are written only in the `success` case, matching the
source, where the failure and not-found paths return before the final
stores. -/
inductive IkeProposalsResult where
  | success (proposals : List IkeProposal) (count : Nat)
  | failed
  | not_found
  deriving DecidableEq, Repr

/-- Function `get_ike_proposals` of `sa_payload.c`: pass 1 counts and
structurally checks the IKE proposals (any violation returns `FAILED` at
once); a count of zero yields `NOT_FOUND`; otherwise pass 2 populates one
record per IKE proposal, returning `FAILED` if a required transform type is
not found, and on success returns the records together with the count. -/
def get_ike_proposals (pl : SaPayload) : IkeProposalsResult :=
  match ike_pass_one pl.proposals with
  | none => IkeProposalsResult.failed
  | some n =>
    if n = 0 then IkeProposalsResult.not_found
    else
      match ike_pass_two pl.proposals with
      | none => IkeProposalsResult.failed
      | some rs => IkeProposalsResult.success rs n

/-- Function `sa_payload_create`: default field values of a fresh payload. -/
def sa_payload_create : SaPayload :=
  { next_payload := NO_PAYLOAD
    critical := SA_PAYLOAD_CRITICAL_FLAG
    payload_length := SA_PAYLOAD_HEADER_LENGTH
    proposals := [] }

/-- Loop body of `sa_payload_create_from_ike_proposals` for the record at
0-based position `i`: a fresh proposal substructure with protocol id IKE and
proposal number `i + 1`, to which the four transforms are added in the
source's order — encryption, PRF, integrity, Diffie-Hellman group (the DH
transform is created with key length 0). -/
def build_ike_proposal_substructure (i : Nat) (r : IkeProposal) : Proposal :=
  let p0 := { proposal_substructure_create with
                protocol_id := ProtocolId.IKE
                proposal_number := i + 1 }
  let p1 := p0.add_transform_substructure
    (transform_substructure_create_type TransformType.ENCRYPTION_ALGORITHM
      r.encryption_algorithm r.encryption_algorithm_key_length)
  let p2 := p1.add_transform_substructure
    (transform_substructure_create_type TransformType.PSEUDO_RANDOM_FUNCTION
      r.pseudo_random_function r.pseudo_random_function_key_length)
  let p3 := p2.add_transform_substructure
    (transform_substructure_create_type TransformType.INTEGRITY_ALGORITHM
      r.integrity_algorithm r.integrity_algorithm_key_length)
  p3.add_transform_substructure
    (transform_substructure_create_type TransformType.DIFFIE_HELLMAN_GROUP
      r.diffie_hellman_group 0)

/-- The `for` loop of `sa_payload_create_from_ike_proposals`, with the loop
index made explicit. -/
def create_from_aux : Nat → List IkeProposal → SaPayload → SaPayload
  | _, [], pl => pl
  | i, r :: rest, pl =>
    create_from_aux (i + 1) rest
      (add_proposal_substructure pl (build_ike_proposal_substructure i r))

/-- Function `sa_payload_create_from_ike_proposals` of `sa_payload.c`. -/
def sa_payload_create_from_ike_proposals (records : List IkeProposal) : SaPayload :=
  create_from_aux 0 records sa_payload_create

/-- Proof helper: a proposal with its last-proposal flag cleared; two
proposals with equal `unflag` images agree on every field the payload
operations other than flag maintenance read. -/
def Proposal.unflag (p : Proposal) : Proposal :=
  { p with is_last_proposal := false }

/-- Proof helper: the shape of a proposal sequence built by repeated
`add_proposal_substructure` from the empty payload — every element's
last-proposal flag cleared except the final element's, which is set. -/
def flagged : List Proposal → List Proposal
  | [] => []
  | [p] => [{ p with is_last_proposal := true }]
  | p :: q :: rest => { p with is_last_proposal := false } :: flagged (q :: rest)

/-- Proof helper: an individually verifying IKE proposal carrying only a
proposal number, used to probe the numbering logic of `verify`. -/
def numbered_proposal (n : Nat) : Proposal :=
  { proposal_number := n
    protocol_id := ProtocolId.IKE
    spi := []
    transforms := []
    is_last_proposal := false
    verify_ok := true }

/-- Proof helper: a non-critical payload whose proposals carry the given
numbers and all individually verify. -/
def numbering_payload (ns : List Nat) : SaPayload :=
  { next_payload := 0
    critical := false
    payload_length := 4
    proposals := ns.map numbered_proposal }

/-- Proof helper: the transform carried 4096 times by `big_proposal`. -/
def big_transform : Transform :=
  { transform_type := TransformType.OTHER_TYPE
    transform_id := 0
    key_length := none
    is_last_transform := false }

/-- Proof helper: a proposal of encoded length 32776 (4096 attribute-free
transforms of 8 bytes each), used to exhibit 16-bit truncation of the payload
length. -/
def big_proposal : Proposal :=
  { proposal_number := 1
    protocol_id := ProtocolId.ESP
    spi := []
    transforms := List.replicate 4096 big_transform
    is_last_proposal := false
    verify_ok := true }

/-- Proof helper: the list-level effect of one `add_proposal_substructure`. -/
def list_add (l : List Proposal) (p : Proposal) : List Proposal :=
  clear_last_proposal l ++ [{ p with is_last_proposal := true }]

/-- Proof helper: the proposal substructures built by the loop of
`sa_payload_create_from_ike_proposals` starting at index `i`, before flag
adjustment by the payload's append operation. -/
def built_list : Nat → List IkeProposal → List Proposal
  | _, [] => []
  | i, r :: rest => build_ike_proposal_substructure i r :: built_list (i + 1) rest

/-- Proof helper: whether a transform is an encryption transform whose
key-length query succeeds. -/
def has_enc_key (t : Transform) : Bool :=
  match t.transform_type with
  | TransformType.ENCRYPTION_ALGORITHM => t.key_length.isSome
  | _ => false

/-- Proof helper: whether a transform is an integrity transform whose
key-length query succeeds. -/
def has_integ_key (t : Transform) : Bool :=
  match t.transform_type with
  | TransformType.INTEGRITY_ALGORITHM => t.key_length.isSome
  | _ => false

/-- Proof helper: whether a transform is a PRF transform whose key-length
query succeeds. -/
def has_prf_key (t : Transform) : Bool :=
  match t.transform_type with
  | TransformType.PSEUDO_RANDOM_FUNCTION => t.key_length.isSome
  | _ => false

/-- Proof helper: whether a transform is a Diffie-Hellman group transform. -/
def is_dh (t : Transform) : Bool :=
  match t.transform_type with
  | TransformType.DIFFIE_HELLMAN_GROUP => true
  | _ => false

lemma ike_pass_one_no_ike (l : List Proposal)
    (h : ∀ p ∈ l, p.protocol_id ≠ ProtocolId.IKE) : ike_pass_one l = some 0 := by
  induction l with
  | nil => rfl
  | cons p rest ih =>
    have hp : p.protocol_id ≠ ProtocolId.IKE := h p (List.mem_cons_self _ _)
    rw [ike_pass_one, if_neg hp]
    exact ih fun q hq => h q (List.mem_cons_of_mem _ hq)

lemma clear_last_proposal_map_get_length (l : List Proposal) :
    (clear_last_proposal l).map Proposal.get_length = l.map Proposal.get_length := by
  induction l with
  | nil => rfl
  | cons p rest ih =>
    cases rest with
    | nil => rfl
    | cons q t =>
      rw [clear_last_proposal]
      simpa using ih

/-- C4: a payload whose critical flag is set fails `verify` at once,
whatever its proposals are. -/
theorem verify_critical_failed (pl : SaPayload) (h : pl.critical = true) :
    verify pl = Status.FAILED := by
  simp [verify, h]

/-- Witness for C4: a concrete critical payload with an otherwise absurd
proposal list fails `verify`. -/
theorem verify_critical_failed_witness :
    verify { next_payload := 0, critical := true, payload_length := 4,
             proposals := [{ proposal_number := 7, protocol_id := ProtocolId.ESP,
                             spi := [1], transforms := [], is_last_proposal := true,
                             verify_ok := false }] } = Status.FAILED :=
  verify_critical_failed _ rfl

/-- C5: a payload with no IKE-protocol proposal (in particular an empty one)
yields the distinct `NOT_FOUND` outcome from `get_ike_proposals`, with the
output parameters unwritten. -/
theorem get_ike_proposals_no_ike_not_found (pl : SaPayload)
    (h : ∀ p ∈ pl.proposals, p.protocol_id ≠ ProtocolId.IKE) :
    get_ike_proposals pl = IkeProposalsResult.not_found := by
  rw [get_ike_proposals, ike_pass_one_no_ike pl.proposals h]
  rfl

/-- Witness for C5: a payload holding one ESP and one AH proposal gives
`NOT_FOUND`. -/
theorem get_ike_proposals_no_ike_not_found_witness :
    get_ike_proposals { next_payload := 0, critical := false, payload_length := 4,
                        proposals := [{ proposal_number := 1, protocol_id := ProtocolId.ESP,
                                        spi := [1, 2, 3, 4], transforms := [],
                                        is_last_proposal := false, verify_ok := true },
                                      { proposal_number := 2, protocol_id := ProtocolId.AH,
                                        spi := [5, 6, 7, 8], transforms := [],
                                        is_last_proposal := true, verify_ok := true }] } =
      IkeProposalsResult.not_found :=
  get_ike_proposals_no_ike_not_found _ (by decide)

/-- C10: the freshly constructed payload of `sa_payload_create` has
next-payload `NO_PAYLOAD`, stored length equal to the 4-byte header, an empty
proposal sequence, `get_length` equal to the header length, and verifies
successfully. -/
theorem sa_payload_create_defaults :
    sa_payload_create.next_payload = NO_PAYLOAD ∧
    sa_payload_create.critical = false ∧
    sa_payload_create.payload_length = SA_PAYLOAD_HEADER_LENGTH ∧
    sa_payload_create.proposals = [] ∧
    get_length sa_payload_create = SA_PAYLOAD_HEADER_LENGTH ∧
    verify sa_payload_create = Status.SUCCESS := by
  decide

/-- C1 divergence: on a non-critical payload of individually verifying IKE
proposals, `verify` rejects the numbering [1,2,3] — the local running number
is never advanced past 1, so the number 3 fails the `proposal_number + 1`
comparison — while it accepts [1,1,2] and rejects [1,3] and [2,1] as the
claim states. -/
theorem verify_numbering_divergence :
    verify (numbering_payload [1, 2, 3]) = Status.FAILED ∧
    verify (numbering_payload [1, 1, 2]) = Status.SUCCESS ∧
    verify (numbering_payload [1, 3]) = Status.FAILED ∧
    verify (numbering_payload [2, 1]) = Status.FAILED := by
  decide

/-- C6 counterexample: `payload_length` is a 16-bit field, so `get_length`
returns the header-plus-proposals total only modulo 65536; two proposals of
encoded length 32776 each (4096 attribute-free transforms apiece) make the
true total 65556 but `get_length` returns 20. -/
theorem get_length_truncation_counterexample :
    get_length { next_payload := 0, critical := false, payload_length := 0,
                 proposals := [big_proposal, big_proposal] } ≠
      SA_PAYLOAD_HEADER_LENGTH +
        (([big_proposal, big_proposal] : List Proposal).map Proposal.get_length).sum := by
  have hp : big_proposal.get_length = 32776 := by
    rw [Proposal.get_length, big_proposal, List.map_replicate, List.sum_const_nat]
    norm_num [big_transform, Transform.get_length]
  simp [get_length, compute_length, SA_PAYLOAD_HEADER_LENGTH, hp]

/-- C6 (amended): `get_length` always returns the header length plus the sum
of the proposals' own encoded lengths reduced modulo 65536; it is stable
under a forced recomputation; and `add_proposal_substructure` moves it to the
previous value plus the added proposal's encoded length, again modulo
65536 (so it grows by exactly that length whenever no 16-bit wraparound
occurs). -/
theorem get_length_mod_spec (pl : SaPayload) (p : Proposal) :
    get_length pl =
      (SA_PAYLOAD_HEADER_LENGTH + (pl.proposals.map Proposal.get_length).sum) % 65536 ∧
    get_length (compute_length pl) = get_length pl ∧
    get_length (add_proposal_substructure pl p) =
      (get_length pl + p.get_length) % 65536 := by
  refine ⟨rfl, rfl, ?_⟩
  have hflag : Proposal.get_length { p with is_last_proposal := true } = p.get_length := rfl
  simp only [add_proposal_substructure, get_length, compute_length, List.map_append,
    List.sum_append, clear_last_proposal_map_get_length, List.map_cons, List.map_nil,
    List.sum_cons, List.sum_nil, hflag, Nat.mod_add_mod]
  omega

lemma has_enc_key_false (t : Transform)
    (hty : t.transform_type ≠ TransformType.ENCRYPTION_ALGORITHM) :
    has_enc_key t = false := by
  cases hc : t.transform_type
  · exact absurd hc hty
  all_goals simp [has_enc_key, hc]

lemma has_integ_key_false (t : Transform)
    (hty : t.transform_type ≠ TransformType.INTEGRITY_ALGORITHM) :
    has_integ_key t = false := by
  cases hc : t.transform_type
  case INTEGRITY_ALGORITHM => exact absurd hc hty
  all_goals simp [has_integ_key, hc]

lemma has_prf_key_false (t : Transform)
    (hty : t.transform_type ≠ TransformType.PSEUDO_RANDOM_FUNCTION) :
    has_prf_key t = false := by
  cases hc : t.transform_type
  case PSEUDO_RANDOM_FUNCTION => exact absurd hc hty
  all_goals simp [has_prf_key, hc]

lemma is_dh_false (t : Transform)
    (hty : t.transform_type ≠ TransformType.DIFFIE_HELLMAN_GROUP) :
    is_dh t = false := by
  cases hc : t.transform_type
  case DIFFIE_HELLMAN_GROUP => exact absurd hc hty
  all_goals simp [is_dh, hc]

lemma foldl_scan_enc_found (l : List Transform) (s : ScanState) :
    (l.foldl scan_step s).encryption_algorithm_found =
      (s.encryption_algorithm_found || l.any has_enc_key) := by
  induction l generalizing s with
  | nil => simp
  | cons t rest ih =>
    rw [List.foldl_cons, List.any_cons, ih]
    cases h : t.transform_type <;> simp [scan_step, has_enc_key, h, Bool.or_assoc]

lemma foldl_scan_integ_found (l : List Transform) (s : ScanState) :
    (l.foldl scan_step s).integrity_algorithm_found =
      (s.integrity_algorithm_found || l.any has_integ_key) := by
  induction l generalizing s with
  | nil => simp
  | cons t rest ih =>
    rw [List.foldl_cons, List.any_cons, ih]
    cases h : t.transform_type <;> simp [scan_step, has_integ_key, h, Bool.or_assoc]

lemma foldl_scan_prf_found (l : List Transform) (s : ScanState) :
    (l.foldl scan_step s).pseudo_random_function_found =
      (s.pseudo_random_function_found || l.any has_prf_key) := by
  induction l generalizing s with
  | nil => simp
  | cons t rest ih =>
    rw [List.foldl_cons, List.any_cons, ih]
    cases h : t.transform_type <;> simp [scan_step, has_prf_key, h, Bool.or_assoc]

lemma foldl_scan_dh_found (l : List Transform) (s : ScanState) :
    (l.foldl scan_step s).diffie_hellman_group_found =
      (s.diffie_hellman_group_found || l.any is_dh) := by
  induction l generalizing s with
  | nil => simp
  | cons t rest ih =>
    rw [List.foldl_cons, List.any_cons, ih]
    cases h : t.transform_type <;> simp [scan_step, is_dh, h, Bool.or_assoc]

lemma scan_proposal_none_enc (p : Proposal)
    (h : ∀ t ∈ p.transforms,
      t.transform_type = TransformType.ENCRYPTION_ALGORITHM → t.key_length = none) :
    scan_proposal p = none := by
  have hf : (p.transforms.foldl scan_step initial_scan_state).encryption_algorithm_found
      = false := by
    rw [foldl_scan_enc_found]
    simp only [initial_scan_state, Bool.false_or, List.any_eq_false]
    intro t ht
    by_cases hty : t.transform_type = TransformType.ENCRYPTION_ALGORITHM
    · simp [has_enc_key, hty, h t ht hty]
    · simp [has_enc_key_false t hty]
  simp [scan_proposal, hf]

lemma scan_proposal_none_integ (p : Proposal)
    (h : ∀ t ∈ p.transforms,
      t.transform_type = TransformType.INTEGRITY_ALGORITHM → t.key_length = none) :
    scan_proposal p = none := by
  have hf : (p.transforms.foldl scan_step initial_scan_state).integrity_algorithm_found
      = false := by
    rw [foldl_scan_integ_found]
    simp only [initial_scan_state, Bool.false_or, List.any_eq_false]
    intro t ht
    by_cases hty : t.transform_type = TransformType.INTEGRITY_ALGORITHM
    · simp [has_integ_key, hty, h t ht hty]
    · simp [has_integ_key_false t hty]
  simp [scan_proposal, hf]

lemma scan_proposal_none_prf (p : Proposal)
    (h : ∀ t ∈ p.transforms,
      t.transform_type = TransformType.PSEUDO_RANDOM_FUNCTION → t.key_length = none) :
    scan_proposal p = none := by
  have hf : (p.transforms.foldl scan_step initial_scan_state).pseudo_random_function_found
      = false := by
    rw [foldl_scan_prf_found]
    simp only [initial_scan_state, Bool.false_or, List.any_eq_false]
    intro t ht
    by_cases hty : t.transform_type = TransformType.PSEUDO_RANDOM_FUNCTION
    · simp [has_prf_key, hty, h t ht hty]
    · simp [has_prf_key_false t hty]
  simp [scan_proposal, hf]

lemma scan_proposal_none_dh (p : Proposal)
    (h : ∀ t ∈ p.transforms, t.transform_type ≠ TransformType.DIFFIE_HELLMAN_GROUP) :
    scan_proposal p = none := by
  have hf : (p.transforms.foldl scan_step initial_scan_state).diffie_hellman_group_found
      = false := by
    rw [foldl_scan_dh_found]
    simp only [initial_scan_state, Bool.false_or, List.any_eq_false]
    intro t ht
    simp [is_dh_false t (h t ht)]
  simp [scan_proposal, hf]

lemma ike_pass_one_none (l : List Proposal) (p : Proposal) (hp : p ∈ l)
    (hike : p.protocol_id = ProtocolId.IKE) (hbad : ike_structure_ok p = false) :
    ike_pass_one l = none := by
  induction l with
  | nil => cases hp
  | cons q rest ih =>
    rw [ike_pass_one]
    rcases List.mem_cons.mp hp with rfl | hmem
    · rw [if_pos hike]
      simp [hbad]
    · by_cases hq : q.protocol_id = ProtocolId.IKE
      · rw [if_pos hq]
        by_cases hs : ike_structure_ok q = true
        · simp [hs, ih hmem]
        · simp [hs]
      · rw [if_neg hq]
        exact ih hmem

lemma ike_pass_one_pos (l : List Proposal) (p : Proposal) (n : Nat) (hp : p ∈ l)
    (hike : p.protocol_id = ProtocolId.IKE) (h : ike_pass_one l = some n) : n ≠ 0 := by
  induction l generalizing n with
  | nil => cases hp
  | cons q rest ih =>
    rw [ike_pass_one] at h
    by_cases hq : q.protocol_id = ProtocolId.IKE
    · rw [if_pos hq] at h
      by_cases hs : ike_structure_ok q = true
      · rw [if_pos hs] at h
        rcases Option.map_eq_some'.mp h with ⟨m, _, hm⟩
        omega
      · simp [hs] at h
    · rw [if_neg hq] at h
      rcases List.mem_cons.mp hp with rfl | hmem
      · exact absurd hike hq
      · exact ih n hmem h

lemma ike_pass_two_none (l : List Proposal) (p : Proposal) (hp : p ∈ l)
    (hike : p.protocol_id = ProtocolId.IKE) (hscan : scan_proposal p = none) :
    ike_pass_two l = none := by
  induction l with
  | nil => cases hp
  | cons q rest ih =>
    rw [ike_pass_two]
    rcases List.mem_cons.mp hp with rfl | hmem
    · rw [if_pos hike, hscan]
    · by_cases hq : q.protocol_id = ProtocolId.IKE
      · rw [if_pos hq]
        cases hsq : scan_proposal q with
        | none => rfl
        | some r => rw [ih hmem]; rfl
      · rw [if_neg hq]
        exact ih hmem

lemma get_ike_proposals_failed_of_bad (pl : SaPayload) (p : Proposal)
    (hp : p ∈ pl.proposals) (hike : p.protocol_id = ProtocolId.IKE)
    (hbad : ike_structure_ok p = false ∨ scan_proposal p = none) :
    get_ike_proposals pl = IkeProposalsResult.failed := by
  rcases hbad with hb | hb
  · rw [get_ike_proposals, ike_pass_one_none pl.proposals p hp hike hb]
  · rw [get_ike_proposals]
    rcases hone : ike_pass_one pl.proposals with _ | n
    · rfl
    · have hn : n ≠ 0 := ike_pass_one_pos pl.proposals p n hp hike hone
      have h2 := ike_pass_two_none pl.proposals p hp hike hb
      simp [h2, hn]

/-- C3: an IKE proposal with a transform count other than 4, or a non-empty
SPI, or a missing required transform type, makes the whole
`get_ike_proposals` call fail — regardless of the other proposals — and the
failure outcome carries no output. -/
theorem get_ike_proposals_structural_failure (pl : SaPayload) (p : Proposal)
    (hp : p ∈ pl.proposals) (hike : p.protocol_id = ProtocolId.IKE)
    (hbad : p.get_transform_count ≠ 4 ∨ p.get_spi_size ≠ 0 ∨
      ∃ ty ∈ [TransformType.ENCRYPTION_ALGORITHM, TransformType.INTEGRITY_ALGORITHM,
              TransformType.PSEUDO_RANDOM_FUNCTION, TransformType.DIFFIE_HELLMAN_GROUP],
        ∀ t ∈ p.transforms, t.transform_type ≠ ty) :
    get_ike_proposals pl = IkeProposalsResult.failed := by
  apply get_ike_proposals_failed_of_bad pl p hp hike
  rcases hbad with h | h | ⟨ty, hty, hmiss⟩
  · left
    simp [ike_structure_ok, h]
  · left
    simp [ike_structure_ok, h]
  · right
    simp only [List.mem_cons, List.mem_singleton, List.not_mem_nil, or_false] at hty
    rcases hty with rfl | rfl | rfl | rfl
    · exact scan_proposal_none_enc p fun t ht hc => absurd hc (hmiss t ht)
    · exact scan_proposal_none_integ p fun t ht hc => absurd hc (hmiss t ht)
    · exact scan_proposal_none_prf p fun t ht hc => absurd hc (hmiss t ht)
    · exact scan_proposal_none_dh p hmiss

/-- Witness for C3: a payload whose first (ESP) proposal is arbitrary and
whose second proposal is an IKE proposal with only 3 transforms fails as a
whole. -/
theorem get_ike_proposals_structural_failure_witness :
    get_ike_proposals
      { next_payload := 0, critical := false, payload_length := 4,
        proposals :=
          [{ proposal_number := 1, protocol_id := ProtocolId.ESP, spi := [9, 9, 9, 9],
             transforms := [], is_last_proposal := false, verify_ok := true },
           { proposal_number := 2, protocol_id := ProtocolId.IKE, spi := [],
             transforms :=
               [{ transform_type := TransformType.ENCRYPTION_ALGORITHM, transform_id := 12,
                  key_length := some 128, is_last_transform := false },
                { transform_type := TransformType.PSEUDO_RANDOM_FUNCTION, transform_id := 5,
                  key_length := some 0, is_last_transform := false },
                { transform_type := TransformType.DIFFIE_HELLMAN_GROUP, transform_id := 14,
                  key_length := none, is_last_transform := true }],
             is_last_proposal := true, verify_ok := true }] } =
      IkeProposalsResult.failed := by
  apply get_ike_proposals_structural_failure _
    { proposal_number := 2, protocol_id := ProtocolId.IKE, spi := [],
      transforms :=
        [{ transform_type := TransformType.ENCRYPTION_ALGORITHM, transform_id := 12,
           key_length := some 128, is_last_transform := false },
         { transform_type := TransformType.PSEUDO_RANDOM_FUNCTION, transform_id := 5,
           key_length := some 0, is_last_transform := false },
         { transform_type := TransformType.DIFFIE_HELLMAN_GROUP, transform_id := 14,
           key_length := none, is_last_transform := true }],
      is_last_proposal := true, verify_ok := true }
    (by decide) (by decide)
  left
  decide

/-- C9: within `get_ike_proposals`, an encryption, integrity or PRF transform
counts as found only when its key-length query succeeds; so an IKE proposal
with exactly 4 transforms covering the 4 required types and an empty SPI, but
whose transforms of one of those three types all lack the key-length
attribute, still fails the whole call. -/
theorem get_ike_proposals_key_length_failure (pl : SaPayload) (p : Proposal)
    (hp : p ∈ pl.proposals) (hike : p.protocol_id = ProtocolId.IKE)
    (hcount : p.get_transform_count = 4) (hspi : p.spi = [])
    (hall : ∀ ty ∈ [TransformType.ENCRYPTION_ALGORITHM, TransformType.INTEGRITY_ALGORITHM,
              TransformType.PSEUDO_RANDOM_FUNCTION, TransformType.DIFFIE_HELLMAN_GROUP],
        ∃ t ∈ p.transforms, t.transform_type = ty)
    (hkey : ∃ ty ∈ [TransformType.ENCRYPTION_ALGORITHM, TransformType.INTEGRITY_ALGORITHM,
              TransformType.PSEUDO_RANDOM_FUNCTION],
        ∀ t ∈ p.transforms, t.transform_type = ty → t.key_length = none) :
    get_ike_proposals pl = IkeProposalsResult.failed := by
  apply get_ike_proposals_failed_of_bad pl p hp hike
  right
  rcases hkey with ⟨ty, hty, hmiss⟩
  simp only [List.mem_cons, List.mem_singleton, List.not_mem_nil, or_false] at hty
  rcases hty with rfl | rfl | rfl
  · exact scan_proposal_none_enc p hmiss
  · exact scan_proposal_none_integ p hmiss
  · exact scan_proposal_none_prf p hmiss

/-- Witness for C9: an IKE proposal with the four required transform types,
empty SPI, and no key-length attribute on its encryption transform makes the
call fail. -/
theorem get_ike_proposals_key_length_failure_witness :
    get_ike_proposals
      { next_payload := 0, critical := false, payload_length := 4,
        proposals :=
          [{ proposal_number := 1, protocol_id := ProtocolId.IKE, spi := [],
             transforms :=
               [{ transform_type := TransformType.ENCRYPTION_ALGORITHM, transform_id := 12,
                  key_length := none, is_last_transform := false },
                { transform_type := TransformType.PSEUDO_RANDOM_FUNCTION, transform_id := 5,
                  key_length := some 0, is_last_transform := false },
                { transform_type := TransformType.INTEGRITY_ALGORITHM, transform_id := 2,
                  key_length := some 96, is_last_transform := false },
                { transform_type := TransformType.DIFFIE_HELLMAN_GROUP, transform_id := 14,
                  key_length := none, is_last_transform := true }],
             is_last_proposal := true, verify_ok := true }] } =
      IkeProposalsResult.failed := by
  apply get_ike_proposals_key_length_failure _
    { proposal_number := 1, protocol_id := ProtocolId.IKE, spi := [],
      transforms :=
        [{ transform_type := TransformType.ENCRYPTION_ALGORITHM, transform_id := 12,
           key_length := none, is_last_transform := false },
         { transform_type := TransformType.PSEUDO_RANDOM_FUNCTION, transform_id := 5,
           key_length := some 0, is_last_transform := false },
         { transform_type := TransformType.INTEGRITY_ALGORITHM, transform_id := 2,
           key_length := some 96, is_last_transform := false },
         { transform_type := TransformType.DIFFIE_HELLMAN_GROUP, transform_id := 14,
           key_length := none, is_last_transform := true }],
      is_last_proposal := true, verify_ok := true }
    (by decide) (by decide) (by decide) (by decide) (by decide)
  exact ⟨TransformType.ENCRYPTION_ALGORITHM, by decide, by decide⟩

lemma unflag_fields {a b : Proposal} (h : a.unflag = b.unflag) :
    a.proposal_number = b.proposal_number ∧ a.protocol_id = b.protocol_id ∧
    a.spi = b.spi ∧ a.transforms = b.transforms ∧ a.verify_ok = b.verify_ok := by
  cases a
  cases b
  simp only [Proposal.unflag, Proposal.mk.injEq, and_true, true_and] at h
  exact ⟨h.1, h.2.1, h.2.2.1, h.2.2.2.1, h.2.2.2.2⟩

lemma ike_pass_one_congr (l1 l2 : List Proposal)
    (h : l1.map Proposal.unflag = l2.map Proposal.unflag) :
    ike_pass_one l1 = ike_pass_one l2 := by
  induction l1 generalizing l2 with
  | nil => cases l2 with
    | nil => rfl
    | cons b t2 => simp at h
  | cons a t1 ih =>
    cases l2 with
    | nil => simp at h
    | cons b t2 =>
      simp only [List.map_cons, List.cons.injEq] at h
      obtain ⟨h1, h2⟩ := h
      obtain ⟨hnum, hpr, hspi, htr, hok⟩ := unflag_fields h1
      have hso : ike_structure_ok a = ike_structure_ok b := by
        simp [ike_structure_ok, Proposal.get_transform_count, Proposal.get_spi_size,
              htr, hspi]
      rw [ike_pass_one, ike_pass_one, hpr, hso, ih t2 h2]

lemma ike_pass_two_congr (l1 l2 : List Proposal)
    (h : l1.map Proposal.unflag = l2.map Proposal.unflag) :
    ike_pass_two l1 = ike_pass_two l2 := by
  induction l1 generalizing l2 with
  | nil => cases l2 with
    | nil => rfl
    | cons b t2 => simp at h
  | cons a t1 ih =>
    cases l2 with
    | nil => simp at h
    | cons b t2 =>
      simp only [List.map_cons, List.cons.injEq] at h
      obtain ⟨h1, h2⟩ := h
      obtain ⟨hnum, hpr, hspi, htr, hok⟩ := unflag_fields h1
      have hsc : scan_proposal a = scan_proposal b := by
        simp [scan_proposal, htr]
      rw [ike_pass_two, ike_pass_two, hpr, hsc, ih t2 h2]

lemma flagged_cons_cons (p q : Proposal) (t : List Proposal) :
    flagged (p :: q :: t) = { p with is_last_proposal := false } :: flagged (q :: t) :=
  rfl

lemma clear_last_proposal_cons_cons (a x : Proposal) (xs : List Proposal) :
    clear_last_proposal (a :: x :: xs) = a :: clear_last_proposal (x :: xs) :=
  rfl

lemma flagged_cons_shape (q : Proposal) (t : List Proposal) :
    ∃ x xs, flagged (q :: t) = x :: xs := by
  cases t <;> exact ⟨_, _, rfl⟩

lemma flagged_map_unflag (l : List Proposal) :
    (flagged l).map Proposal.unflag = l.map Proposal.unflag := by
  induction l with
  | nil => rfl
  | cons p rest ih =>
    cases rest with
    | nil => rfl
    | cons q t =>
      rw [flagged_cons_cons, List.map_cons, List.map_cons, ih]
      rfl

lemma clear_last_flagged (l : List Proposal) :
    clear_last_proposal (flagged l) = l.map Proposal.unflag := by
  induction l with
  | nil => rfl
  | cons p rest ih =>
    cases rest with
    | nil => rfl
    | cons q t =>
      obtain ⟨x, xs, hsh⟩ := flagged_cons_shape q t
      rw [flagged_cons_cons, hsh, clear_last_proposal_cons_cons, ← hsh, ih]
      rfl

lemma flagged_append_singleton (l : List Proposal) (r : Proposal) :
    flagged (l ++ [r]) = l.map Proposal.unflag ++ [{ r with is_last_proposal := true }] := by
  induction l with
  | nil => rfl
  | cons p rest ih =>
    have hsh : ∃ x xs, rest ++ [r] = x :: xs := by
      cases rest <;> exact ⟨_, _, rfl⟩
    obtain ⟨x, xs, hsh⟩ := hsh
    show flagged (p :: (rest ++ [r])) = _
    rw [hsh, flagged_cons_cons, ← hsh, ih]
    rfl

lemma list_add_flagged (l : List Proposal) (r : Proposal) :
    list_add (flagged l) r = flagged (l ++ [r]) := by
  rw [list_add, clear_last_flagged, flagged_append_singleton]

lemma foldl_list_add_flagged (rest : List Proposal) : ∀ l : List Proposal,
    List.foldl list_add (flagged l) rest = flagged (l ++ rest) := by
  induction rest with
  | nil => intro l; simp
  | cons r rest3 ih =>
    intro l
    rw [List.foldl_cons, list_add_flagged, ih (l ++ [r]), List.append_assoc,
        List.singleton_append]

lemma foldl_add_proposals (adds : List Proposal) (pl : SaPayload) :
    (List.foldl add_proposal_substructure pl adds).proposals =
      List.foldl list_add pl.proposals adds := by
  induction adds generalizing pl with
  | nil => rfl
  | cons a t ih =>
    rw [List.foldl_cons, List.foldl_cons, ih]
    rfl

lemma create_from_aux_proposals (rs : List IkeProposal) : ∀ (i : Nat) (pl : SaPayload),
    (create_from_aux i rs pl).proposals = List.foldl list_add pl.proposals (built_list i rs) := by
  induction rs with
  | nil => intro i pl; rfl
  | cons r rest ih =>
    intro i pl
    rw [create_from_aux, built_list, List.foldl_cons, ih (i + 1)]
    rfl

lemma create_proposals (rs : List IkeProposal) :
    (sa_payload_create_from_ike_proposals rs).proposals = flagged (built_list 0 rs) := by
  rw [sa_payload_create_from_ike_proposals, create_from_aux_proposals]
  have h := foldl_list_add_flagged (built_list 0 rs) []
  simpa using h

lemma build_protocol_id (i : Nat) (r : IkeProposal) :
    (build_ike_proposal_substructure i r).protocol_id = ProtocolId.IKE := rfl

lemma build_number (i : Nat) (r : IkeProposal) :
    (build_ike_proposal_substructure i r).proposal_number = i + 1 := rfl

lemma build_structure_ok (i : Nat) (r : IkeProposal) :
    ike_structure_ok (build_ike_proposal_substructure i r) = true := rfl

lemma scan_proposal_build (i : Nat) (r : IkeProposal) :
    scan_proposal (build_ike_proposal_substructure i r) = some r := rfl

lemma build_transforms_map (i : Nat) (r : IkeProposal) :
    (build_ike_proposal_substructure i r).transforms.map
        (fun t => (t.transform_type, t.transform_id, t.key_length)) =
      [(TransformType.ENCRYPTION_ALGORITHM, r.encryption_algorithm,
          some r.encryption_algorithm_key_length),
       (TransformType.PSEUDO_RANDOM_FUNCTION, r.pseudo_random_function,
          some r.pseudo_random_function_key_length),
       (TransformType.INTEGRITY_ALGORITHM, r.integrity_algorithm,
          some r.integrity_algorithm_key_length),
       (TransformType.DIFFIE_HELLMAN_GROUP, r.diffie_hellman_group, some 0)] := rfl

lemma pass_one_built (rs : List IkeProposal) : ∀ i : Nat,
    ike_pass_one (built_list i rs) = some rs.length := by
  induction rs with
  | nil => intro i; rfl
  | cons r rest ih =>
    intro i
    rw [built_list, ike_pass_one, if_pos (build_protocol_id i r)]
    rw [if_pos (build_structure_ok i r), ih (i + 1)]
    simp

lemma pass_two_built (rs : List IkeProposal) : ∀ i : Nat,
    ike_pass_two (built_list i rs) = some rs := by
  induction rs with
  | nil => intro i; rfl
  | cons r rest ih =>
    intro i
    rw [built_list, ike_pass_two, if_pos (build_protocol_id i r),
        scan_proposal_build, ih (i + 1)]
    rfl

lemma flagged_length (l : List Proposal) : (flagged l).length = l.length := by
  induction l with
  | nil => rfl
  | cons p rest ih =>
    cases rest with
    | nil => rfl
    | cons q t =>
      rw [flagged_cons_cons, List.length_cons, List.length_cons, ih]

lemma built_list_length (rs : List IkeProposal) : ∀ i : Nat,
    (built_list i rs).length = rs.length := by
  induction rs with
  | nil => intro i; rfl
  | cons r rest ih =>
    intro i
    rw [built_list, List.length_cons, List.length_cons, ih (i + 1)]

lemma built_list_getElem? (rs : List IkeProposal) : ∀ (j i : Nat) (r : IkeProposal),
    rs[i]? = some r →
    (built_list j rs)[i]? = some (build_ike_proposal_substructure (j + i) r) := by
  induction rs with
  | nil => intro j i r h; simp at h
  | cons a rest ih =>
    intro j i r h
    cases i with
    | zero =>
      simp only [List.getElem?_cons_zero, Option.some.injEq] at h
      subst h
      simp only [built_list, List.getElem?_cons_zero, Nat.add_zero]
    | succ i2 =>
      rw [List.getElem?_cons_succ] at h
      rw [built_list, List.getElem?_cons_succ, ih (j + 1) i2 r h]
      have harith : j + 1 + i2 = j + (i2 + 1) := by omega
      rw [harith]

lemma flagged_countP (l : List Proposal) (h : l ≠ []) :
    (flagged l).countP (fun p => p.is_last_proposal) = 1 := by
  induction l with
  | nil => exact absurd rfl h
  | cons p rest ih =>
    cases rest with
    | nil => simp [flagged, List.countP_cons]
    | cons q t =>
      rw [flagged_cons_cons, List.countP_cons, ih (List.cons_ne_nil q t)]
      simp

lemma flagged_getLast? (l : List Proposal) :
    (flagged l).getLast? =
      l.getLast?.map (fun p => { p with is_last_proposal := true }) := by
  induction l with
  | nil => rfl
  | cons p rest ih =>
    cases rest with
    | nil => rfl
    | cons q t =>
      obtain ⟨x, xs, hsh⟩ := flagged_cons_shape q t
      rw [flagged_cons_cons, hsh, List.getLast?_cons_cons, ← hsh, ih,
          List.getLast?_cons_cons]

/-- C7: after any non-empty sequence of `add_proposal_substructure` calls on
a fresh payload, the proposal sequence has one element per call, exactly one
element carries the last-proposal flag, and the final element is the most
recently added proposal with its flag set. -/
theorem add_sequence_last_flag_invariant (adds : List Proposal) (h : adds ≠ []) :
    ((List.foldl add_proposal_substructure sa_payload_create adds).proposals).length
        = adds.length ∧
    ((List.foldl add_proposal_substructure sa_payload_create adds).proposals).countP
        (fun p => p.is_last_proposal) = 1 ∧
    ((List.foldl add_proposal_substructure sa_payload_create adds).proposals).getLast?
        = adds.getLast?.map (fun p => { p with is_last_proposal := true }) := by
  have hp : (List.foldl add_proposal_substructure sa_payload_create adds).proposals
      = flagged adds := by
    rw [foldl_add_proposals]
    have := foldl_list_add_flagged adds []
    simpa using this
  rw [hp]
  exact ⟨flagged_length adds, flagged_countP adds h, flagged_getLast? adds⟩

/-- Witness for C7: adding two concrete proposals leaves the flag only on
the second one. -/
theorem add_sequence_last_flag_invariant_witness :
    (((List.foldl add_proposal_substructure sa_payload_create
        [{ proposal_number := 1, protocol_id := ProtocolId.ESP, spi := [1],
           transforms := [], is_last_proposal := true, verify_ok := true },
         { proposal_number := 2, protocol_id := ProtocolId.AH, spi := [],
           transforms := [], is_last_proposal := false, verify_ok := true }]).proposals).length
        = 2) ∧
    (((List.foldl add_proposal_substructure sa_payload_create
        [{ proposal_number := 1, protocol_id := ProtocolId.ESP, spi := [1],
           transforms := [], is_last_proposal := true, verify_ok := true },
         { proposal_number := 2, protocol_id := ProtocolId.AH, spi := [],
           transforms := [], is_last_proposal := false, verify_ok := true }]).proposals).countP
        (fun p => p.is_last_proposal) = 1) ∧
    (((List.foldl add_proposal_substructure sa_payload_create
        [{ proposal_number := 1, protocol_id := ProtocolId.ESP, spi := [1],
           transforms := [], is_last_proposal := true, verify_ok := true },
         { proposal_number := 2, protocol_id := ProtocolId.AH, spi := [],
           transforms := [], is_last_proposal := false, verify_ok := true }]).proposals).getLast?
        = ([{ proposal_number := 1, protocol_id := ProtocolId.ESP, spi := [1],
              transforms := [], is_last_proposal := true, verify_ok := true },
            { proposal_number := 2, protocol_id := ProtocolId.AH, spi := [],
              transforms := [], is_last_proposal := false, verify_ok := true }]
            : List Proposal).getLast?.map (fun p => { p with is_last_proposal := true })) :=
  add_sequence_last_flag_invariant _ (by decide)

/-- C2 counterexample: on the empty record array, the constructed payload has
no IKE proposal, so `get_ike_proposals` returns the not-found outcome rather
than succeeding with an empty array. -/
theorem create_from_empty_not_found :
    get_ike_proposals (sa_payload_create_from_ike_proposals []) =
      IkeProposalsResult.not_found := by
  decide

/-- C2 (amended): for every non-empty record array, building a payload via
`sa_payload_create_from_ike_proposals` and extracting with
`get_ike_proposals` succeeds and returns exactly the original records in
order, with the count equal to the input count. -/
theorem create_get_ike_roundtrip (records : List IkeProposal) (h : records ≠ []) :
    get_ike_proposals (sa_payload_create_from_ike_proposals records) =
      IkeProposalsResult.success records records.length := by
  have h1 : ike_pass_one (flagged (built_list 0 records)) = some records.length := by
    rw [ike_pass_one_congr _ _ (flagged_map_unflag _), pass_one_built records 0]
  have h2 : ike_pass_two (flagged (built_list 0 records)) = some records := by
    rw [ike_pass_two_congr _ _ (flagged_map_unflag _)]
    exact pass_two_built records 0
  have hn : records.length ≠ 0 := fun hc => h (List.length_eq_zero.mp hc)
  rw [get_ike_proposals, create_proposals]
  simp [h1, h2, hn]

/-- Witness for C2: the round trip on one concrete record. -/
theorem create_get_ike_roundtrip_witness :
    get_ike_proposals (sa_payload_create_from_ike_proposals
      [{ encryption_algorithm := 12, encryption_algorithm_key_length := 128,
         integrity_algorithm := 2, integrity_algorithm_key_length := 96,
         pseudo_random_function := 5, pseudo_random_function_key_length := 0,
         diffie_hellman_group := 14 }]) =
      IkeProposalsResult.success
        [{ encryption_algorithm := 12, encryption_algorithm_key_length := 128,
           integrity_algorithm := 2, integrity_algorithm_key_length := 96,
           pseudo_random_function := 5, pseudo_random_function_key_length := 0,
           diffie_hellman_group := 14 }] 1 :=
  create_get_ike_roundtrip _ (by decide)

/-- C8: for the record at 0-based position `i`, the constructed payload holds
at position `i` a proposal with protocol id IKE, proposal number `i + 1`, and
exactly 4 transforms carrying, in construction order, the encryption, PRF,
integrity and DH selections of the record; the proposal list has the same
length as the input. -/
theorem create_from_ike_proposals_structure (records : List IkeProposal) (i : Nat)
    (r : IkeProposal) (hr : records[i]? = some r) :
    ((sa_payload_create_from_ike_proposals records).proposals).length = records.length ∧
    ∃ p, ((sa_payload_create_from_ike_proposals records).proposals)[i]? = some p ∧
      p.protocol_id = ProtocolId.IKE ∧
      p.proposal_number = i + 1 ∧
      p.transforms.map (fun t => (t.transform_type, t.transform_id, t.key_length)) =
        [(TransformType.ENCRYPTION_ALGORITHM, r.encryption_algorithm,
            some r.encryption_algorithm_key_length),
         (TransformType.PSEUDO_RANDOM_FUNCTION, r.pseudo_random_function,
            some r.pseudo_random_function_key_length),
         (TransformType.INTEGRITY_ALGORITHM, r.integrity_algorithm,
            some r.integrity_algorithm_key_length),
         (TransformType.DIFFIE_HELLMAN_GROUP, r.diffie_hellman_group, some 0)] := by
  constructor
  · rw [create_proposals, flagged_length, built_list_length]
  · have hb : (built_list 0 records)[i]? =
        some (build_ike_proposal_substructure i r) := by
      simpa using built_list_getElem? records 0 i r hr
    have h1 : ((sa_payload_create_from_ike_proposals records).proposals)[i]?.map
        Proposal.unflag = some ((build_ike_proposal_substructure i r).unflag) := by
      rw [← List.getElem?_map, create_proposals, flagged_map_unflag,
          List.getElem?_map, hb]
      rfl
    rcases Option.map_eq_some'.mp h1 with ⟨p, hp, hup⟩
    obtain ⟨hnum, hpr, hspi, htr, hok⟩ := unflag_fields hup
    refine ⟨p, hp, ?_, ?_, ?_⟩
    · rw [hpr, build_protocol_id]
    · rw [hnum, build_number]
    · rw [htr, build_transforms_map]

/-- Witness for C8: the structure of the proposal built for the only record
of a singleton array. -/
theorem create_from_ike_proposals_structure_witness :
    ((sa_payload_create_from_ike_proposals
        [{ encryption_algorithm := 12, encryption_algorithm_key_length := 128,
           integrity_algorithm := 2, integrity_algorithm_key_length := 96,
           pseudo_random_function := 5, pseudo_random_function_key_length := 0,
           diffie_hellman_group := 14 }]).proposals).length = 1 ∧
    ∃ p, ((sa_payload_create_from_ike_proposals
        [{ encryption_algorithm := 12, encryption_algorithm_key_length := 128,
           integrity_algorithm := 2, integrity_algorithm_key_length := 96,
           pseudo_random_function := 5, pseudo_random_function_key_length := 0,
           diffie_hellman_group := 14 }]).proposals)[0]? = some p ∧
      p.protocol_id = ProtocolId.IKE ∧
      p.proposal_number = 0 + 1 ∧
      p.transforms.map (fun t => (t.transform_type, t.transform_id, t.key_length)) =
        [(TransformType.ENCRYPTION_ALGORITHM, 12, some 128),
         (TransformType.PSEUDO_RANDOM_FUNCTION, 5, some 0),
         (TransformType.INTEGRITY_ALGORITHM, 2, some 96),
         (TransformType.DIFFIE_HELLMAN_GROUP, 14, some 0)] :=
  create_from_ike_proposals_structure
    [{ encryption_algorithm := 12, encryption_algorithm_key_length := 128,
       integrity_algorithm := 2, integrity_algorithm_key_length := 96,
       pseudo_random_function := 5, pseudo_random_function_key_length := 0,
       diffie_hellman_group := 14 }] 0 _ rfl

end StrongSwan
